import Mathlib

/-!
# Verification of the ARC grid-relationship property engine

A shallow embedding of the grid property detectors, the structural validator
and the heuristic sample solver of the `logicmoo/ARC_study` repository
(JavaScript source: `src/grids.js`, `src/sanity_check.js`, `src/solve_task.js`,
the `rows` module bundled with `src/utility/utils.js` and the `columns`
module bundled with `src/solve_task.js`), together with proofs and
refutations of the specified properties.

Grids are JavaScript arrays of arrays of small natural numbers (colors 0-9),
embedded as `List (List Nat)`.  JavaScript numeric division is embedded in
`ℚ` (task grids are non-empty, so the divisors are positive wherever the
results matter; division by zero never influences a theorem below).
-/

namespace ArcStudy

/-- A grid row: a JavaScript array of colors. -/
abbrev Row := List Nat

/-- A grid: a JavaScript array of rows. -/
abbrev Grid := List Row

/-- A sample: an `{input, output}` grid pair. -/
structure Sample where
  input : Grid
  output : Grid
deriving Repr, DecidableEq

/-- Iteration worker for a JavaScript `Set`: keeps the elements not yet
`seen`, in order of first occurrence. -/
def jsSetListGo {α : Type} [BEq α] (seen : List α) : List α → List α
  | [] => []
  | x :: xs =>
    if seen.contains x then jsSetListGo seen xs
    else x :: jsSetListGo (x :: seen) xs

/-- Iteration order of a JavaScript `Set` built from a list
(`[...new Set(list)]`): every element exactly once, in order of first
occurrence. -/
def jsSetList {α : Type} [BEq α] (l : List α) : List α := jsSetListGo [] l

/-- lodash `_.unzip(matrix)` restricted to rectangular matrices (the Grid
invariant guarantees every row has the length of row 0): the transpose,
element `(i, j)` moves to `(j, i)`. -/
def jsUnzip (m : Grid) : Grid :=
  (List.range (m.headD []).length).map (fun j => m.map (fun r => r.getD j 0))

namespace rows

/-- `rows.getNumberOfInputRows` (utils.js): `sample.input[0].length`.
Note: this is the length of row 0, i.e. the number of *columns* of the
input grid; the source names it "rows". -/
def getNumberOfInputRows (s : Sample) : Nat := (s.input.headD []).length

/-- `rows.getNumberOfOutputRows` (utils.js): `sample.output[0].length`. -/
def getNumberOfOutputRows (s : Sample) : Nat := (s.output.headD []).length

/-- `rows.getInputOutputRowScalingFactor`: JavaScript numeric division,
embedded in `ℚ`. -/
def getInputOutputRowScalingFactor (s : Sample) : ℚ :=
  (getNumberOfInputRows s : ℚ) / (getNumberOfOutputRows s : ℚ)

/-- `rows.getOutputInputRowScalingFactor`. -/
def getOutputInputRowScalingFactor (s : Sample) : ℚ :=
  (getNumberOfOutputRows s : ℚ) / (getNumberOfInputRows s : ℚ)

/-- `rows.getInputRow(sample, row)`: `sample.input[row-1]` (1-based). -/
def getInputRow (s : Sample) (row : Nat) : Row := s.input.getD (row - 1) []

/-- `rows.getOutputRow(sample, row)`: `sample.output[row-1]` (1-based). -/
def getOutputRow (s : Sample) (row : Nat) : Row := s.output.getD (row - 1) []

/-- `rows.areInputAndOutputRowsOfTheSameSize`. -/
def areInputAndOutputRowsOfTheSameSize (s : Sample) : Bool :=
  getNumberOfInputRows s == getNumberOfOutputRows s

/-- `rows.areThereMoreInputRowsThanOutputRows`. -/
def areThereMoreInputRowsThanOutputRows (s : Sample) : Bool :=
  decide (getNumberOfOutputRows s < getNumberOfInputRows s)

/-- `rows.isTheOutputOneRowHigh`: `sample.output.length === 1`. -/
def isTheOutputOneRowHigh (s : Sample) : Bool := s.output.length == 1

/-- `rows.doesTheOutputRowMatchAnyRowsOfTheInput`:
`0 === sample.input.filter((r, i) => !_.isEqual(r, rows.getOutputRow(sample, 1))).length`. -/
def doesTheOutputRowMatchAnyRowsOfTheInput (s : Sample) : Bool :=
  (s.input.filter (fun r => !(r == getOutputRow s 1))).length == 0

/-- `rows.areAllRowsEqual`:
`0 === matrix.filter((r, i) => !_.isEqual(r, matrix[0])).length`. -/
def areAllRowsEqual (m : Grid) : Bool :=
  (m.filter (fun r => !(r == m.headD []))).length == 0

/-- `rows.processInputAndOutputHavingRowsOfTheSameSize`: returns
`sample.output` or (JavaScript) `undefined`, embedded as `Option`. -/
def processInputAndOutputHavingRowsOfTheSameSize (s : Sample) : Option Grid :=
  if isTheOutputOneRowHigh s then
    if doesTheOutputRowMatchAnyRowsOfTheInput s then
      if areAllRowsEqual s.input then some s.output else none
    else none
  else none

/-- `rows.colorsBesidesBlack(row)`: `[...new Set(r.filter(cell => cell !== 0))]`. -/
def colorsBesidesBlack (r : Row) : List Nat :=
  jsSetList (r.filter (fun cell => !(cell == 0)))

end rows

namespace columns

/-- `columns.getNumberOfInputColumns` (solve_task.js): `sample.input.length`.
Note: this is the number of *rows* of the input grid; the source names it
"columns". -/
def getNumberOfInputColumns (s : Sample) : Nat := s.input.length

/-- `columns.getNumberOfOutputColumns`: `sample.output.length`. -/
def getNumberOfOutputColumns (s : Sample) : Nat := s.output.length

/-- `columns.getInputColumn(sample, column)`:
`sample.input.map(row => row[column-1])` (1-based; out-of-range cells are
JavaScript `undefined`, embedded as `none`). -/
def getInputColumn (s : Sample) (column : Nat) : List (Option Nat) :=
  s.input.map (fun row => row[column - 1]?)

/-- `columns.getOutputColumn(sample, column)`. -/
def getOutputColumn (s : Sample) (column : Nat) : List (Option Nat) :=
  s.output.map (fun row => row[column - 1]?)

/-- `columns.areInputAndOutputColumnsOfTheSameSize`. -/
def areInputAndOutputColumnsOfTheSameSize (s : Sample) : Bool :=
  getNumberOfInputColumns s == getNumberOfOutputColumns s

/-- `columns.areThereMoreInputColumnsThanOutputColumns`:
`sample.input.length > sample.output.length` (row counts; see
`getNumberOfInputColumns`). -/
def areThereMoreInputColumnsThanOutputColumns (s : Sample) : Bool :=
  decide (getNumberOfOutputColumns s < getNumberOfInputColumns s)

/-- `columns.isTheOutputOneColumnWide`: `sample.output[0].length === 1`. -/
def isTheOutputOneColumnWide (s : Sample) : Bool :=
  (s.output.headD []).length == 1

/-- `columns.doesTheOutputColumnMatchAnyColumnsOfTheInput`: a loop over
`column = 1 .. numberOfInputColumns` setting a `match` flag when
`_.isEqual(inputColumn, outputColumn)`. -/
def doesTheOutputColumnMatchAnyColumnsOfTheInput (s : Sample) : Bool :=
  (List.range (getNumberOfInputColumns s)).any
    (fun c => getInputColumn s (c + 1) == getOutputColumn s 1)

/-- `columns.areAllColumnsEqual`: transposes with `_.unzip` and compares
every transposed row with transposed row 0. -/
def areAllColumnsEqual (m : Grid) : Bool :=
  let matrixTranspose := jsUnzip m
  (matrixTranspose.filter (fun r => !(r == matrixTranspose.headD []))).length == 0

/-- `columns.processInputAndOutputHavingColumnsOfTheSameSize`. -/
def processInputAndOutputHavingColumnsOfTheSameSize (s : Sample) : Option Grid :=
  if isTheOutputOneColumnWide s then
    if doesTheOutputColumnMatchAnyColumnsOfTheInput s then
      if areAllColumnsEqual s.input then some s.output else none
    else none
  else none

end columns

namespace grids

/-- `grids.doInputAndOutputGridsHaveTheSameDimensions`. -/
def doInputAndOutputGridsHaveTheSameDimensions (s : Sample) : Bool :=
  columns.areInputAndOutputColumnsOfTheSameSize s &&
    rows.areInputAndOutputRowsOfTheSameSize s

/-- `grids.areInputAndOutputGridsIdentical`:
`JSON.stringify(sample.input) === JSON.stringify(sample.output)`, which on
numeric grids is structural equality. -/
def areInputAndOutputGridsIdentical (s : Sample) : Bool :=
  s.input == s.output

/-- Modelled from the spec: `columns.getInputOutputColumnScalingFactor` is
referenced by `grids.isInputGridScaledDownByIntegerFactor` but missing from
the `columns` module in the source snapshot; the spec defines the Column
Analyzer as the transpose-dual of the Row Analyzer with
`scalingFactor(a, b) = a / b`, so this is the ratio of the source's column
counts (`columns.getNumberOfInputColumns / columns.getNumberOfOutputColumns`). -/
def getInputOutputColumnScalingFactor (s : Sample) : ℚ :=
  (columns.getNumberOfInputColumns s : ℚ) / (columns.getNumberOfOutputColumns s : ℚ)

/-- Modelled from the spec: `columns.getOutputInputColumnScalingFactor`,
missing from the source snapshot, mirrored from
`rows.getOutputInputRowScalingFactor`. -/
def getOutputInputColumnScalingFactor (s : Sample) : ℚ :=
  (columns.getNumberOfOutputColumns s : ℚ) / (columns.getNumberOfInputColumns s : ℚ)

/-- `grids.isInputGridScaledDownByIntegerFactor`: the row scaling factor
equals its `Math.floor`, is `< 1.0`, and equals the column scaling factor
(the conjunction short-circuits exactly as the JavaScript `&&` does).
`Math.floor` is embedded as the executable `Rat.floor`, which equals
`Int.floor` by `Rat.floor_def'`. -/
def isInputGridScaledDownByIntegerFactor (s : Sample) : Bool :=
  decide (rows.getInputOutputRowScalingFactor s =
      ((rows.getInputOutputRowScalingFactor s).floor : ℚ)) &&
  decide (rows.getInputOutputRowScalingFactor s < 1) &&
  decide (rows.getInputOutputRowScalingFactor s = getInputOutputColumnScalingFactor s)

/-- `grids.isInputGridScaledUpByIntegerFactor`. -/
def isInputGridScaledUpByIntegerFactor (s : Sample) : Bool :=
  decide (rows.getOutputInputRowScalingFactor s =
      ((rows.getOutputInputRowScalingFactor s).floor : ℚ)) &&
  decide (1 < rows.getOutputInputRowScalingFactor s) &&
  decide (rows.getOutputInputRowScalingFactor s = getOutputInputColumnScalingFactor s)

/-- `grids.areAllCellsNColorsOrBlack(matrix, n)`: concatenates the per-row
non-black color lists and compares the size of the resulting `Set` with `n`. -/
def areAllCellsNColorsOrBlack (m : Grid) (n : Nat) : Bool :=
  (jsSetList (m.foldl (fun colors row => colors ++ rows.colorsBesidesBlack row) [])).length == n

/-- `grids.colorsBesidesBlack(matrix)`:
`[...new Set(matrix.flat(2))].filter(color => color !== 0)` — a *list* of the
distinct colors in first-occurrence order, with black removed. -/
def colorsBesidesBlack (m : Grid) : List Nat :=
  (jsSetList m.flatten).filter (fun color => !(color == 0))

/-- `grids.areAllInputAndOutputCellsTwoColorsOrBlack`: both grids show
exactly two non-black colors and `_.isEqual` holds of the two (ordered)
color lists; the stray second argument passed to `colorsBesidesBlack` in the
source is ignored by JavaScript. -/
def areAllInputAndOutputCellsTwoColorsOrBlack (s : Sample) : Bool :=
  areAllCellsNColorsOrBlack s.input 2 &&
  areAllCellsNColorsOrBlack s.output 2 &&
  (colorsBesidesBlack s.input == colorsBesidesBlack s.output)

/-- `grids.transpose(matrix)`: `_.unzip(matrix)`. -/
def transpose (m : Grid) : Grid := jsUnzip m

/-- `Object.values(matrix.reduce((r, v) => (r[v] = v, r), {}))`: rows
deduplicated by their JavaScript property key `v.toString()`.  JavaScript
objects iterate integer-like keys (single-cell rows — colors are ≤ 9) in
ascending numeric order before string keys (rows of width ≥ 2 stringify
with commas), which keep first-insertion order. -/
def jsObjectRowValues (m : Grid) : Grid :=
  let u := jsSetList m
  if (m.headD []).length == 1 then
    List.insertionSort (fun a b => a.headD 0 ≤ b.headD 0) u
  else u

/-- `grids.dedupRows(matrix)`: a no-op unless all columns are equal,
otherwise deduplicates rows through a JavaScript object. -/
def dedupRows (m : Grid) : Grid :=
  if !(columns.areAllColumnsEqual m) then m
  else jsObjectRowValues m

/-- `grids.dedupColumns(matrix)`: a no-op unless all rows are equal,
otherwise replaces every row with `[...new Set(matrix[0])]`. -/
def dedupColumns (m : Grid) : Grid :=
  if !(rows.areAllRowsEqual m) then m
  else m.map (fun _ => jsSetList (m.headD []))

end grids

/-- The result of the heuristic chain `solve_sample`: either the literal
`sample.output` grid, or the `"no solution:   " + patternDetected` string. -/
inductive ChainResult where
  | solution (g : Grid)
  | noSolution (s : String)
deriving Repr, DecidableEq

/-- The sample state after the step-4 assignment
`sample.input = grids.dedupColumns(sample.input)`, which runs exactly when
the step-4 guard holds. -/
def step4Sample (s0 : Sample) : Sample :=
  if rows.isTheOutputOneRowHigh s0 &&
      columns.areThereMoreInputColumnsThanOutputColumns s0 then
    { s0 with input := grids.dedupColumns s0.input } else s0

/-- The sample state after the step-5 assignment
`sample.input = grids.dedupRows(sample.input)`, applied on top of the
step-4 state (the step-5 guard reads the possibly already rewritten
sample). -/
def step5Sample (s0 : Sample) : Sample :=
  let s4 := step4Sample s0
  if columns.isTheOutputOneColumnWide s4 &&
      rows.areThereMoreInputRowsThanOutputRows s4 then
    { s4 with input := grids.dedupRows s4.input } else s4

/-- `patternDetected` after step 1 of the chain. -/
def p1String (s0 : Sample) : String :=
  if grids.doInputAndOutputGridsHaveTheSameDimensions s0 then
    "" ++ "grids have same dimension |" else ""

/-- `patternDetected` after step 2. -/
def p2String (s0 : Sample) : String :=
  if columns.areInputAndOutputColumnsOfTheSameSize s0 then
    p1String s0 ++ "input and output columns have same size |" else p1String s0

/-- `patternDetected` after step 3. -/
def p3String (s0 : Sample) : String :=
  if rows.areInputAndOutputRowsOfTheSameSize s0 then
    p2String s0 ++ "input and output rows have the same size |" else p2String s0

/-- `patternDetected` after step 4. -/
def p4String (s0 : Sample) : String :=
  if rows.isTheOutputOneRowHigh s0 then
    p3String s0 ++ "output is one row high |" else p3String s0

/-- `patternDetected` after step 5 (the guard reads the step-4 state, as
the source's mutated `sample` does). -/
def p5String (s0 : Sample) : String :=
  if columns.isTheOutputOneColumnWide (step4Sample s0) then
    p4String s0 ++ "output is one column wide |" else p4String s0

/-- `patternDetected` after the scale-down check (evaluated on the final,
possibly twice-rewritten sample). -/
def p6String (s0 : Sample) : String :=
  if grids.isInputGridScaledDownByIntegerFactor (step5Sample s0) then
    p5String s0 ++ "scales down an integer multiple in rows and columns |" else p5String s0

/-- `patternDetected` after the scale-up check. -/
def p7String (s0 : Sample) : String :=
  if grids.isInputGridScaledUpByIntegerFactor (step5Sample s0) then
    p6String s0 ++ "scales up an integer multiple in rows and columns |" else p6String s0

/-- The heuristic chain `solve_sample` (the solver revision bundled with
`src/sanity_check.js`).  JavaScript mutates `sample.input` in place in the
two dedup steps; the embedding threads the sample state explicitly
(`step4Sample`, `step5Sample`) and returns the final state next to the
result.  Each early `return sample.output` of the source is a
`ChainResult.solution` branch; the `patternDetected` accumulation is the
`pNString` family.  The scaling-factor checks at the end are the source's
inline copies of `grids.isInputGridScaledDownByIntegerFactor` /
`...UpByIntegerFactor`. -/
def solve_sample (s0 : Sample) : ChainResult × Sample :=
  if grids.doInputAndOutputGridsHaveTheSameDimensions s0 &&
      grids.areInputAndOutputGridsIdentical s0 then
    (.solution s0.output, s0)
  else if columns.areInputAndOutputColumnsOfTheSameSize s0 &&
      (columns.processInputAndOutputHavingColumnsOfTheSameSize s0).isSome then
    (.solution s0.output, s0)
  else if rows.areInputAndOutputRowsOfTheSameSize s0 &&
      (rows.processInputAndOutputHavingRowsOfTheSameSize s0).isSome then
    (.solution s0.output, s0)
  else if rows.isTheOutputOneRowHigh s0 &&
      columns.areThereMoreInputColumnsThanOutputColumns s0 &&
      (rows.processInputAndOutputHavingRowsOfTheSameSize (step4Sample s0)).isSome then
    (.solution (step4Sample s0).output, step4Sample s0)
  else if columns.isTheOutputOneColumnWide (step4Sample s0) &&
      rows.areThereMoreInputRowsThanOutputRows (step4Sample s0) &&
      (columns.processInputAndOutputHavingColumnsOfTheSameSize (step5Sample s0)).isSome then
    (.solution (step5Sample s0).output, step5Sample s0)
  else
    (.noSolution ("no solution:   " ++ p7String s0), step5Sample s0)

/-- A JSON-like JavaScript value, as far as the structural validator
inspects task values. -/
inductive JsVal where
  | jnull
  | jbool (b : Bool)
  | jnum (n : Nat)
  | jstr (s : String)
  | jarr (elems : List JsVal)
  | jobj (fields : List (String × JsVal))

/-- `task === null`. -/
def JsVal.isNull : JsVal → Bool
  | .jnull => true
  | _ => false

/-- `utils.isElementAnObject`: the `[object Object]` type tag. -/
def isElementAnObject : JsVal → Bool
  | .jobj _ => true
  | _ => false

/-- `utils.isElementAnArray`: the `[object Array]` type tag. -/
def isElementAnArray : JsVal → Bool
  | .jarr _ => true
  | _ => false

/-- `Object.keys(o)` (empty on non-objects; the validator only applies it
after its object check succeeds). -/
def JsVal.objKeys : JsVal → List String
  | .jobj fields => fields.map Prod.fst
  | _ => []

/-- Property access `o[k]`: `undefined` (here `JsVal.jnull`-free `none`)
when absent. -/
def JsVal.getField : JsVal → String → Option JsVal
  | .jobj fields, k => (fields.find? (fun f => f.1 == k)).map Prod.snd
  | _, _ => none

/-- Property access with JavaScript `undefined` collapsed to `jnull`; only
used where the validator has already established the field exists. -/
def JsVal.fieldD (v : JsVal) (k : String) : JsVal :=
  (v.getField k).getD .jnull

/-- The element list of an array value (empty on non-arrays; only used
where the validator has already established the value is an array). -/
def JsVal.asArr : JsVal → List JsVal
  | .jarr elems => elems
  | _ => []

/-- `isArrayOfArrays` (sanity_check.js). -/
def isArrayOfArrays (arr : JsVal) : Bool :=
  ((arr.asArr).filter (fun r => !(isElementAnArray r))).length == 0

/-- `sanityCheck(task)` (sanity_check.js): returns `'sane'` or the message
of the first violated structural rule, in source order. -/
def sanityCheck (task : JsVal) : String :=
  if task.isNull then "missing task"
  else if !(isElementAnObject task) then "task should be an object"
  else if task.objKeys.length == 0 then "task should not be an empty object"
  else if !(task.objKeys.contains "train") then "task missing training data"
  else if !(isElementAnArray (task.fieldD "train")) then "task training data must be an array"
  else
    let train := (task.fieldD "train").asArr
    if train.length == 0 then "task training data must be an array of one or more objects"
    else if 0 < (train.filter (fun t => !(isElementAnObject t))).length then
      "task training data array may only contain objects"
    else if 0 < (train.filter (fun t => !(t.objKeys.contains "input"))).length then
      "task training data objects missing at least one input"
    else if 0 < (train.filter (fun t => !(t.objKeys.contains "output"))).length then
      "task training data objects missing at least one output"
    else if 0 < (train.filter (fun t =>
        t.objKeys.contains "input" && !(isElementAnArray (t.fieldD "input")))).length then
      "training inputs must be arrays"
    else if 0 < (train.filter (fun t =>
        t.objKeys.contains "output" && !(isElementAnArray (t.fieldD "output")))).length then
      "training outputs must be arrays"
    else if 0 < (train.filter (fun t => (t.fieldD "input").asArr.length < 1)).length then
      "training input arrays must have one or more elements"
    else if 0 < (train.filter (fun t => (t.fieldD "output").asArr.length < 1)).length then
      "training output arrays must have one or more elements"
    else if 0 < (train.filter (fun t => !(isArrayOfArrays (t.fieldD "input")))).length then
      "training input array elements must be arrays"
    else if 0 < (train.filter (fun t => !(isArrayOfArrays (t.fieldD "output")))).length then
      "training output array elements must be arrays"
    else "sane"

/-- Decode a JSON cell to a color (the identity on the numeric cells of a
validated task). -/
def jsToNat : JsVal → Nat
  | .jnum n => n
  | _ => 0

/-- Decode a JSON row. -/
def jsToRow : JsVal → Row
  | .jarr l => l.map jsToNat
  | _ => []

/-- Decode a JSON grid. -/
def jsToGrid : JsVal → Grid
  | .jarr l => l.map jsToRow
  | _ => []

/-- Decode a JSON `{input, output}` sample. -/
def jsToSample (v : JsVal) : Sample :=
  ⟨jsToGrid (v.fieldD "input"), jsToGrid (v.fieldD "output")⟩

/-- `solve_task(task, training_sample)`: gate on `sanityCheck`, then solve
`task.train[training_sample - 1]` (JavaScript truthiness: `training_sample`
equal to `0` selects the test branch) or `task.test[0]`.  The JavaScript
function returns the error string and the solver result on one channel,
embedded as `Except`. -/
def solve_task (task : JsVal) (training_sample : Nat) : Except String ChainResult :=
  let err := sanityCheck task
  if err != "sane" then .error err
  else if training_sample != 0 then
    .ok (solve_sample (jsToSample
      (((task.fieldD "train").asArr).getD (training_sample - 1) .jnull))).1
  else
    .ok (solve_sample (jsToSample
      (((task.fieldD "test").asArr).getD 0 .jnull))).1

/-- The set of distinct non-background colors of a grid (the spec's reading
of "exactly n distinct non-background colors", used to state the
color-cardinality claims). -/
def nonBgColors (m : Grid) : Finset Nat :=
  (m.flatten.filter (fun c => !(c == 0))).toFinset

/-! ## Helper lemmas -/

lemma mem_jsSetListGo {α : Type} [BEq α] [LawfulBEq α] {l : List α} {a : α} :
    ∀ {seen : List α}, a ∈ jsSetListGo seen l ↔ a ∈ l ∧ a ∉ seen := by
  induction l with
  | nil => simp [jsSetListGo]
  | cons x xs ih =>
    intro seen
    rw [jsSetListGo]
    by_cases hc : seen.contains x
    · rw [if_pos hc, ih]
      have hx : x ∈ seen := by simpa using hc
      simp only [List.mem_cons]
      constructor
      · rintro ⟨h1, h2⟩
        exact ⟨.inr h1, h2⟩
      · rintro ⟨(rfl | h1), h2⟩
        · exact absurd hx h2
        · exact ⟨h1, h2⟩
    · rw [if_neg hc]
      have hx : x ∉ seen := by simpa using hc
      simp only [List.mem_cons, ih, List.mem_cons]
      constructor
      · rintro (rfl | ⟨h1, h2⟩)
        · exact ⟨.inl rfl, hx⟩
        · exact ⟨.inr h1, fun hs => h2 (.inr hs)⟩
      · rintro ⟨(rfl | h1), h2⟩
        · exact .inl rfl
        · by_cases hax : a = x
          · exact .inl hax
          · exact .inr ⟨h1, by simp [hax, h2]⟩

lemma mem_jsSetList {α : Type} [BEq α] [LawfulBEq α] {l : List α} {a : α} :
    a ∈ jsSetList l ↔ a ∈ l := by
  unfold jsSetList
  rw [mem_jsSetListGo]
  simp

lemma nodup_jsSetListGo {α : Type} [BEq α] [LawfulBEq α] (l : List α) :
    ∀ (seen : List α), (jsSetListGo seen l).Nodup := by
  induction l with
  | nil => simp [jsSetListGo]
  | cons x xs ih =>
    intro seen
    rw [jsSetListGo]
    by_cases hc : seen.contains x
    · rw [if_pos hc]
      exact ih seen
    · rw [if_neg hc]
      refine List.nodup_cons.mpr ⟨?_, ih (x :: seen)⟩
      intro hx
      exact (mem_jsSetListGo.mp hx).2 (by simp)

lemma nodup_jsSetList {α : Type} [BEq α] [LawfulBEq α] (l : List α) :
    (jsSetList l).Nodup :=
  nodup_jsSetListGo l []

lemma toFinset_jsSetList {α : Type} [BEq α] [LawfulBEq α] [DecidableEq α] (l : List α) :
    (jsSetList l).toFinset = l.toFinset := by
  ext a
  simp [List.mem_toFinset, mem_jsSetList]

lemma length_jsSetList {α : Type} [BEq α] [LawfulBEq α] [DecidableEq α] (l : List α) :
    (jsSetList l).length = l.toFinset.card := by
  rw [← toFinset_jsSetList l, List.toFinset_card_of_nodup (nodup_jsSetList l)]

lemma jsSetListGo_eq_nil {α : Type} [BEq α] [LawfulBEq α] {l : List α} :
    ∀ {seen : List α}, (∀ a ∈ l, a ∈ seen) → jsSetListGo seen l = [] := by
  induction l with
  | nil => intro seen _; rfl
  | cons x xs ih =>
    intro seen h
    rw [jsSetListGo, if_pos (by simpa using h x (by simp))]
    exact ih (fun a ha => h a (List.mem_cons_of_mem _ ha))

lemma jsSetList_of_all_eq {α : Type} [BEq α] [LawfulBEq α] {l : List α} {x : α}
    (hne : l ≠ []) (h : ∀ a ∈ l, a = x) : jsSetList l = [x] := by
  obtain ⟨y, ys, rfl⟩ := List.exists_cons_of_ne_nil hne
  obtain rfl : y = x := h y (by simp)
  unfold jsSetList
  rw [jsSetListGo, if_neg (by simp)]
  have : jsSetListGo [y] ys = [] :=
    jsSetListGo_eq_nil (fun a ha => by
      have := h a (List.mem_cons_of_mem _ ha); simp [this])
  rw [this]

lemma ratFloor_eq_intFloor (q : ℚ) : q.floor = ⌊q⌋ :=
  (Rat.floor_def' q).trans Rat.floor_def.symm

lemma areAllRowsEqual_iff (m : Grid) :
    rows.areAllRowsEqual m = true ↔ ∀ r ∈ m, r = m.headD [] := by
  unfold rows.areAllRowsEqual
  rw [beq_iff_eq, List.length_eq_zero, List.filter_eq_nil_iff]
  simp

/-- The first two conjuncts of the shrink detector are unsatisfiable for
non-empty grids: a positive rational below `1` never equals its floor. -/
lemma scaledDown_eq_false (s : Sample) (hin : 1 ≤ rows.getNumberOfInputRows s)
    (hout : 1 ≤ rows.getNumberOfOutputRows s) :
    grids.isInputGridScaledDownByIntegerFactor s = false := by
  unfold grids.isInputGridScaledDownByIntegerFactor
  rw [ratFloor_eq_intFloor]
  by_cases h1 : rows.getInputOutputRowScalingFactor s =
      ((⌊rows.getInputOutputRowScalingFactor s⌋ : ℤ) : ℚ)
  · by_cases h2 : rows.getInputOutputRowScalingFactor s < 1
    · exfalso
      have hpos : 0 < rows.getInputOutputRowScalingFactor s := by
        unfold rows.getInputOutputRowScalingFactor
        have hi : (0 : ℚ) < (rows.getNumberOfInputRows s : ℚ) := by exact_mod_cast hin
        have ho : (0 : ℚ) < (rows.getNumberOfOutputRows s : ℚ) := by exact_mod_cast hout
        exact div_pos hi ho
      have hfl : (0 : ℤ) < ⌊rows.getInputOutputRowScalingFactor s⌋ := by
        have := hpos
        rw [h1] at this
        exact_mod_cast this
      have hge : (1 : ℚ) ≤ rows.getInputOutputRowScalingFactor s := by
        rw [h1]
        exact_mod_cast hfl
      exact absurd h2 (not_lt.mpr hge)
    · simp [h2]
  · simp [h1]

/-! ## Claim theorems -/

/-- C1: the source of `rows.doesTheOutputRowMatchAnyRowsOfTheInput` counts
the input rows that differ from the single output row and demands that
count be zero, so it is *universal* over input rows, not existential.  On
the sample `{input: [[1,2],[3,4]], output: [[1,2]]}` the output row equals
input row 0, so the claimed existential reading demands `true`, but the
function returns `false`. -/
theorem C1_code_evaluation :
    rows.doesTheOutputRowMatchAnyRowsOfTheInput ⟨[[1, 2], [3, 4]], [[1, 2]]⟩ = false ∧
    rows.isTheOutputOneRowHigh ⟨[[1, 2], [3, 4]], [[1, 2]]⟩ = true ∧
    rows.getOutputRow ⟨[[1, 2], [3, 4]], [[1, 2]]⟩ 1 ∈ ([[1, 2], [3, 4]] : Grid) ∧
    rows.doesTheOutputRowMatchAnyRowsOfTheInput ⟨[[1, 2], [1, 2]], [[1, 2]]⟩ = true := by
  decide

/-- C2 counterexample: `[[1,2],[1,2]]` has all rows equal, yet `dedupRows`
returns it unchanged (its guard demands all *columns* equal), not the
claimed one-row grid. -/
theorem C2_counterexample :
    rows.areAllRowsEqual [[1, 2], [1, 2]] = true ∧
    grids.dedupRows [[1, 2], [1, 2]] = [[1, 2], [1, 2]] ∧
    grids.dedupRows [[1, 2], [1, 2]] ≠ [[1, 2]] := by
  decide

/-- C2 (amended): for a non-empty grid, `dedupRows` collapses to the
one-row grid `[row 0]` when all rows are equal AND all columns are equal;
whenever not all columns are equal (in particular when neither all rows nor
all columns are equal) it returns the grid unchanged. -/
theorem C2_dedupRows_amended (m : Grid) (hne : m ≠ []) :
    (rows.areAllRowsEqual m = true → columns.areAllColumnsEqual m = true →
      grids.dedupRows m = [m.headD []]) ∧
    (columns.areAllColumnsEqual m = false → grids.dedupRows m = m) := by
  constructor
  · intro hr hc
    unfold grids.dedupRows
    rw [hc]
    simp only [Bool.not_true, Bool.false_eq_true, if_false]
    have hall : ∀ r ∈ m, r = m.headD [] := (areAllRowsEqual_iff m).mp hr
    have hu : jsSetList m = [m.headD []] := jsSetList_of_all_eq hne hall
    unfold grids.jsObjectRowValues
    rw [hu]
    split
    · simp [List.insertionSort]
    · rfl
  · intro hc
    unfold grids.dedupRows
    rw [hc]
    simp

/-- C2 witness: a concrete all-rows-equal, all-columns-equal grid collapses
to its first row. -/
theorem C2_dedupRows_amended_witness :
    grids.dedupRows [[5], [5]] = [[5]] :=
  (C2_dedupRows_amended [[5], [5]] (by decide)).1 (by decide) (by decide)

/-- C3: the step-4 guard `columns.areThereMoreInputColumnsThanOutputColumns`
compares `input.length` with `output.length` — the *row* counts — so on the
repository's own test sample (746b3537 test: 1×9 input, 1×5 output, no
earlier terminal applies) the guard is `false` and the chain ends with no
solution, although the input has strictly more columns (9 > 5) and the
dedup-and-retry, had it run, would have produced the output. -/
theorem C3_code_evaluation :
    columns.areThereMoreInputColumnsThanOutputColumns
      ⟨[[1, 1, 2, 3, 3, 3, 8, 8, 4]], [[1, 2, 3, 8, 4]]⟩ = false ∧
    rows.isTheOutputOneRowHigh ⟨[[1, 1, 2, 3, 3, 3, 8, 8, 4]], [[1, 2, 3, 8, 4]]⟩ = true ∧
    (([[1, 2, 3, 8, 4]] : Grid).headD []).length <
      (([[1, 1, 2, 3, 3, 3, 8, 8, 4]] : Grid).headD []).length ∧
    (solve_sample ⟨[[1, 1, 2, 3, 3, 3, 8, 8, 4]], [[1, 2, 3, 8, 4]]⟩).1 =
      .noSolution
        "no solution:   input and output columns have same size |output is one row high |" ∧
    rows.processInputAndOutputHavingRowsOfTheSameSize
      ⟨grids.dedupColumns [[1, 1, 2, 3, 3, 3, 8, 8, 4]], [[1, 2, 3, 8, 4]]⟩ =
      some [[1, 2, 3, 8, 4]] := by
  refine ⟨by decide, by decide, by decide, ?_, by decide⟩
  have hdown : grids.isInputGridScaledDownByIntegerFactor
      ⟨[[1, 1, 2, 3, 3, 3, 8, 8, 4]], [[1, 2, 3, 8, 4]]⟩ = false :=
    scaledDown_eq_false _ (by decide) (by decide)
  have hup : grids.isInputGridScaledUpByIntegerFactor
      ⟨[[1, 1, 2, 3, 3, 3, 8, 8, 4]], [[1, 2, 3, 8, 4]]⟩ = false := by
    unfold grids.isInputGridScaledUpByIntegerFactor
    have hle : ¬(1 < rows.getOutputInputRowScalingFactor
        ⟨[[1, 1, 2, 3, 3, 3, 8, 8, 4]], [[1, 2, 3, 8, 4]]⟩) := by
      unfold rows.getOutputInputRowScalingFactor rows.getNumberOfOutputRows
        rows.getNumberOfInputRows
      norm_num
    simp [hle]
  unfold solve_sample
  simp only [show step4Sample ⟨[[1, 1, 2, 3, 3, 3, 8, 8, 4]], [[1, 2, 3, 8, 4]]⟩ =
      ⟨[[1, 1, 2, 3, 3, 3, 8, 8, 4]], [[1, 2, 3, 8, 4]]⟩ from by decide,
    show step5Sample ⟨[[1, 1, 2, 3, 3, 3, 8, 8, 4]], [[1, 2, 3, 8, 4]]⟩ =
      ⟨[[1, 1, 2, 3, 3, 3, 8, 8, 4]], [[1, 2, 3, 8, 4]]⟩ from by decide,
    show grids.doInputAndOutputGridsHaveTheSameDimensions
      ⟨[[1, 1, 2, 3, 3, 3, 8, 8, 4]], [[1, 2, 3, 8, 4]]⟩ = false from by decide,
    show columns.areInputAndOutputColumnsOfTheSameSize
      ⟨[[1, 1, 2, 3, 3, 3, 8, 8, 4]], [[1, 2, 3, 8, 4]]⟩ = true from by decide,
    show (columns.processInputAndOutputHavingColumnsOfTheSameSize
      ⟨[[1, 1, 2, 3, 3, 3, 8, 8, 4]], [[1, 2, 3, 8, 4]]⟩).isSome = false from by decide,
    show rows.areInputAndOutputRowsOfTheSameSize
      ⟨[[1, 1, 2, 3, 3, 3, 8, 8, 4]], [[1, 2, 3, 8, 4]]⟩ = false from by decide,
    show rows.isTheOutputOneRowHigh
      ⟨[[1, 1, 2, 3, 3, 3, 8, 8, 4]], [[1, 2, 3, 8, 4]]⟩ = true from by decide,
    show columns.areThereMoreInputColumnsThanOutputColumns
      ⟨[[1, 1, 2, 3, 3, 3, 8, 8, 4]], [[1, 2, 3, 8, 4]]⟩ = false from by decide,
    show columns.isTheOutputOneColumnWide
      ⟨[[1, 1, 2, 3, 3, 3, 8, 8, 4]], [[1, 2, 3, 8, 4]]⟩ = false from by decide,
    hdown, hup, Bool.false_and, Bool.true_and, Bool.and_false, Bool.and_true,
    Bool.false_eq_true, if_false, if_true]
  have hp7 : p7String ⟨[[1, 1, 2, 3, 3, 3, 8, 8, 4]], [[1, 2, 3, 8, 4]]⟩ =
      "input and output columns have same size |output is one row high |" := by
    unfold p7String p6String
    simp only [show step5Sample ⟨[[1, 1, 2, 3, 3, 3, 8, 8, 4]], [[1, 2, 3, 8, 4]]⟩ =
        ⟨[[1, 1, 2, 3, 3, 3, 8, 8, 4]], [[1, 2, 3, 8, 4]]⟩ from by decide,
      hdown, hup, Bool.false_eq_true, if_false]
    decide
  rw [hp7]
  rfl

/-- C5: for samples whose grids are non-empty (the Validator invariant:
row 0 of each grid has length ≥ 1), the shrink detector always returns
`false`: its ratio is positive, and a positive rational that equals its
floor cannot be `< 1`, so the conjunction short-circuits to `false`. -/
theorem C5_scaledDown_never_fires (s : Sample)
    (hin : 1 ≤ rows.getNumberOfInputRows s)
    (hout : 1 ≤ rows.getNumberOfOutputRows s) :
    grids.isInputGridScaledDownByIntegerFactor s = false :=
  scaledDown_eq_false s hin hout

/-- C5 witness. -/
theorem C5_scaledDown_never_fires_witness :
    1 ≤ rows.getNumberOfInputRows ⟨[[1, 2]], [[3]]⟩ ∧
    1 ≤ rows.getNumberOfOutputRows ⟨[[1, 2]], [[3]]⟩ ∧
    grids.isInputGridScaledDownByIntegerFactor ⟨[[1, 2]], [[3]]⟩ = false :=
  ⟨by decide, by decide, C5_scaledDown_never_fires ⟨[[1, 2]], [[3]]⟩ (by decide) (by decide)⟩

/-- C6: for samples with non-empty grids, the shrink and growth detectors
are never both `true` (the shrink detector is constantly `false`), and both
are `false` when input and output have the same dimensions (the growth
ratio is then exactly `1`, failing its `> 1` conjunct). -/
theorem C6_scaling_mutually_exclusive (s : Sample)
    (hin : 1 ≤ rows.getNumberOfInputRows s)
    (hout : 1 ≤ rows.getNumberOfOutputRows s) :
    ¬(grids.isInputGridScaledDownByIntegerFactor s = true ∧
      grids.isInputGridScaledUpByIntegerFactor s = true) ∧
    (grids.doInputAndOutputGridsHaveTheSameDimensions s = true →
      grids.isInputGridScaledDownByIntegerFactor s = false ∧
      grids.isInputGridScaledUpByIntegerFactor s = false) := by
  have hdown := scaledDown_eq_false s hin hout
  refine ⟨fun h => by rw [hdown] at h; exact Bool.false_ne_true h.1, fun hsame => ⟨hdown, ?_⟩⟩
  unfold grids.doInputAndOutputGridsHaveTheSameDimensions at hsame
  rw [Bool.and_eq_true] at hsame
  have hw : rows.getNumberOfInputRows s = rows.getNumberOfOutputRows s := by
    have := hsame.2
    unfold rows.areInputAndOutputRowsOfTheSameSize at this
    exact beq_iff_eq.mp this
  have hone : rows.getOutputInputRowScalingFactor s = 1 := by
    unfold rows.getOutputInputRowScalingFactor
    rw [hw]
    have : ((rows.getNumberOfOutputRows s : ℚ)) ≠ 0 := by
      have : (0 : ℚ) < (rows.getNumberOfOutputRows s : ℚ) := by exact_mod_cast hout
      exact ne_of_gt this
    exact div_self this
  unfold grids.isInputGridScaledUpByIntegerFactor
  rw [hone]
  simp

/-- C6 witness: an equal-dimension sample. -/
theorem C6_scaling_mutually_exclusive_witness :
    grids.isInputGridScaledDownByIntegerFactor ⟨[[1, 2], [3, 4]], [[5, 6], [7, 8]]⟩ = false ∧
    grids.isInputGridScaledUpByIntegerFactor ⟨[[1, 2], [3, 4]], [[5, 6], [7, 8]]⟩ = false :=
  (C6_scaling_mutually_exclusive ⟨[[1, 2], [3, 4]], [[5, 6], [7, 8]]⟩
    (by decide) (by decide)).2 (by decide)

/-- C8: `sanityCheck` on the empty object `{}` passes the null and object
checks, fails the key-count rule, and returns exactly
`'task should not be an empty object'`; `solve_task` forwards any
non-`'sane'` validator string unchanged and never reaches the solver. -/
theorem C8_empty_task :
    sanityCheck (.jobj []) = "task should not be an empty object" ∧
    solve_task (.jobj []) 0 = .error "task should not be an empty object" ∧
    ∀ (task : JsVal) (training_sample : Nat), sanityCheck task ≠ "sane" →
      solve_task task training_sample = .error (sanityCheck task) := by
  refine ⟨rfl, rfl, ?_⟩
  intro task ts h
  have hb : (sanityCheck task != "sane") = true := bne_iff_ne.mpr h
  unfold solve_task
  simp only [hb, if_true]

/-- C8 witness: the general gate applied to the null task. -/
theorem C8_empty_task_witness :
    solve_task .jnull 3 = .error (sanityCheck .jnull) :=
  C8_empty_task.2.2 .jnull 3 (by decide)

lemma step4Sample_output (s : Sample) : (step4Sample s).output = s.output := by
  unfold step4Sample
  split <;> rfl

lemma step4Sample_input (s : Sample) :
    (step4Sample s).input = s.input ∨
    (step4Sample s).input = grids.dedupColumns s.input := by
  unfold step4Sample
  split
  · exact .inr rfl
  · exact .inl rfl

lemma step5Sample_output (s : Sample) : (step5Sample s).output = s.output := by
  unfold step5Sample
  dsimp only
  split
  · exact step4Sample_output s
  · exact step4Sample_output s

lemma step5Sample_input (s : Sample) :
    (step5Sample s).input = (step4Sample s).input ∨
    (step5Sample s).input = grids.dedupRows (step4Sample s).input := by
  unfold step5Sample
  dsimp only
  split
  · exact .inr rfl
  · exact .inl rfl

lemma solve_sample_snd (s : Sample) :
    (solve_sample s).2 = s ∨ (solve_sample s).2 = step4Sample s ∨
    (solve_sample s).2 = step5Sample s := by
  unfold solve_sample
  split
  · exact .inl rfl
  · split
    · exact .inl rfl
    · split
      · exact .inl rfl
      · split
        · exact .inr (.inl rfl)
        · split
          · exact .inr (.inr rfl)
          · exact .inr (.inr rfl)

lemma getElem?_jsUnzip (m : Grid) (j : Nat) :
    (jsUnzip m)[j]? =
      if j < (m.headD []).length then some (m.map (fun r => r.getD j 0)) else none := by
  unfold jsUnzip
  rw [List.getElem?_map]
  by_cases hj : j < (m.headD []).length
  · rw [List.getElem?_range hj, if_pos hj]
    rfl
  · rw [List.getElem?_eq_none (by simpa using not_lt.mp hj), if_neg hj]
    rfl

lemma length_jsUnzip (m : Grid) : (jsUnzip m).length = (m.headD []).length := by
  simp [jsUnzip]

lemma map_range_getD {α : Type} (l : List α) (d : α) :
    (List.range l.length).map (fun j => l.getD j d) = l := by
  apply List.ext_getElem?
  intro n
  rw [List.getElem?_map]
  by_cases hn : n < l.length
  · rw [List.getElem?_range hn, List.getElem?_eq_getElem hn]
    simp [List.getD_eq_getElem?_getD, List.getElem?_eq_getElem hn]
  · rw [List.getElem?_eq_none (by simpa using not_lt.mp hn),
      List.getElem?_eq_none (not_lt.mp hn)]
    rfl

lemma jsUnzip_elem (m : Grid) (i j : Nat) (hi : i < m.length)
    (hj : j < (m.headD []).length) :
    ((jsUnzip m).getD j []).getD i 0 = (m.getD i []).getD j 0 := by
  have h1 : (jsUnzip m).getD j [] = m.map (fun r => r.getD j 0) := by
    rw [List.getD_eq_getElem?_getD, getElem?_jsUnzip, if_pos hj]
    rfl
  have h2 : m.getD i [] = m[i] := by
    rw [List.getD_eq_getElem?_getD, List.getElem?_eq_getElem hi]
    rfl
  rw [h1, h2, List.getD_eq_getElem?_getD, List.getElem?_map,
    List.getElem?_eq_getElem hi]
  rfl

lemma jsUnzip_involution (m : Grid) (hw : 0 < (m.headD []).length)
    (hrect : ∀ r ∈ m, r.length = (m.headD []).length) :
    jsUnzip (jsUnzip m) = m := by
  have hT0 : (jsUnzip m).headD [] = m.map (fun r => r.getD 0 0) := by
    rw [List.headD_eq_head?, List.head?_eq_getElem?, getElem?_jsUnzip, if_pos hw]
    rfl
  have hTlen : ((jsUnzip m).headD []).length = m.length := by
    rw [hT0, List.length_map]
  apply List.ext_getElem?
  intro i
  rw [getElem?_jsUnzip, hTlen]
  by_cases hi : i < m.length
  · rw [if_pos hi, List.getElem?_eq_getElem hi]
    congr 1
    have hcomp : ∀ j, ((fun c : Row => c.getD i 0) ∘
        fun j => m.map (fun r => r.getD j 0)) j = (m[i]).getD j 0 := by
      intro j
      simp only [Function.comp]
      rw [List.getD_eq_getElem?_getD, List.getElem?_map, List.getElem?_eq_getElem hi]
      rfl
    unfold jsUnzip
    rw [List.map_map, List.map_congr_left (fun j _ => hcomp j)]
    have hlen : (m[i]).length = (m.headD []).length := hrect _ (m.getElem_mem hi)
    rw [← hlen, map_range_getD]
  · rw [if_neg hi, List.getElem?_eq_none (not_lt.mp hi)]

/-- C9: the solver chain only ever rewrites the sample's `input` field, and
only in the two dedup retry steps — the final input is the original input,
`dedupColumns` of it, `dedupRows` of it, or `dedupRows` of `dedupColumns`
of it — while the `output` field is never modified by any step. -/
theorem C9_solver_frame (s : Sample) :
    (solve_sample s).2.output = s.output ∧
    ((solve_sample s).2.input = s.input ∨
     (solve_sample s).2.input = grids.dedupColumns s.input ∨
     (solve_sample s).2.input = grids.dedupRows s.input ∨
     (solve_sample s).2.input = grids.dedupRows (grids.dedupColumns s.input)) := by
  obtain h | h | h := solve_sample_snd s <;> rw [h]
  · exact ⟨rfl, .inl rfl⟩
  · refine ⟨step4Sample_output s, ?_⟩
    obtain h4 | h4 := step4Sample_input s <;> rw [h4]
    · exact .inl rfl
    · exact .inr (.inl rfl)
  · refine ⟨step5Sample_output s, ?_⟩
    obtain h5 | h5 := step5Sample_input s <;> rw [h5] <;>
      obtain h4 | h4 := step4Sample_input s <;> rw [h4]
    · exact .inl rfl
    · exact .inr (.inl rfl)
    · exact .inr (.inr (.inl rfl))
    · exact .inr (.inr (.inr rfl))

lemma foldl_append_eq (f : Row → List Nat) (m : Grid) :
    ∀ acc, m.foldl (fun colors row => colors ++ f row) acc = acc ++ (m.map f).flatten := by
  induction m with
  | nil => intro acc; simp
  | cons r rs ih =>
    intro acc
    rw [List.foldl_cons, ih (acc ++ f r)]
    simp [List.append_assoc]

lemma toFinset_colors (m : Grid) :
    ((m.map rows.colorsBesidesBlack).flatten).toFinset = nonBgColors m := by
  ext a
  simp only [nonBgColors, List.mem_toFinset, List.mem_flatten, List.mem_map,
    List.mem_filter, rows.colorsBesidesBlack, Bool.not_eq_true', beq_eq_false_iff_ne]
  constructor
  · rintro ⟨l, ⟨r, hr, rfl⟩, ha⟩
    have := mem_jsSetList.mp ha
    rw [List.mem_filter] at this
    exact ⟨⟨r, hr, this.1⟩, by simpa using this.2⟩
  · rintro ⟨⟨r, hr, har⟩, ha0⟩
    refine ⟨jsSetList (r.filter (fun cell => !(cell == 0))), ⟨r, hr, rfl⟩, ?_⟩
    rw [mem_jsSetList, List.mem_filter]
    exact ⟨har, by simpa using ha0⟩

lemma areAllCellsNColorsOrBlack_iff (m : Grid) (n : Nat) :
    grids.areAllCellsNColorsOrBlack m n = true ↔ (nonBgColors m).card = n := by
  unfold grids.areAllCellsNColorsOrBlack
  rw [foldl_append_eq rows.colorsBesidesBlack m [], List.nil_append,
    beq_iff_eq, length_jsSetList, toFinset_colors]

lemma map_range_getD_comp {α β : Type} (l : List α) (d : α) (g : α → β) :
    (List.range l.length).map (fun j => g (l.getD j d)) = l.map g := by
  have h : (fun j => g (l.getD j d)) = g ∘ (fun j => l.getD j d) := rfl
  rw [h, ← List.map_map, map_range_getD]

lemma jsSetListGo_map {α β : Type} [BEq α] [LawfulBEq α] [BEq β] [LawfulBEq β]
    (f : α → β) (hf : Function.Injective f) :
    ∀ (l seen : List α), jsSetListGo (seen.map f) (l.map f) = (jsSetListGo seen l).map f := by
  intro l
  induction l with
  | nil => intro seen; rfl
  | cons x xs ih =>
    intro seen
    rw [List.map_cons, jsSetListGo, jsSetListGo]
    have hc : ((seen.map f).contains (f x)) = (seen.contains x) := by
      rw [Bool.eq_iff_iff, List.elem_iff, List.elem_iff]
      constructor
      · intro h
        obtain ⟨y, hy, hxy⟩ := List.mem_map.mp h
        exact (hf hxy) ▸ hy
      · intro h
        exact List.mem_map_of_mem f h
    rw [hc]
    by_cases hx : seen.contains x = true
    · rw [if_pos hx, if_pos hx, ih seen]
    · rw [if_neg hx, if_neg hx, List.map_cons, ← List.map_cons f x seen, ih (x :: seen)]

lemma jsSetList_map {α β : Type} [BEq α] [LawfulBEq α] [BEq β] [LawfulBEq β]
    (f : α → β) (hf : Function.Injective f) (l : List α) :
    jsSetList (l.map f) = (jsSetList l).map f := by
  have h := jsSetListGo_map f hf l []
  simpa [jsSetList] using h

lemma jsSetList_ne_nil {α : Type} [BEq α] [LawfulBEq α] {l : List α} (h : l ≠ []) :
    jsSetList l ≠ [] := by
  obtain ⟨x, xs, rfl⟩ := List.exists_cons_of_ne_nil h
  unfold jsSetList
  rw [jsSetListGo, if_neg (by simp)]
  exact List.cons_ne_nil _ _

/-- C7 counterexample: on the one-row grid `[[9,3]]`, `dedupColumns` is the
identity, while the transpose-dual route writes the single-cell rows `[9]`,
`[3]` into a JavaScript object under the integer-like keys `"9"`, `"3"`,
which iterate in ascending numeric order, yielding `[[3,9]]`. -/
theorem C7_counterexample :
    grids.dedupColumns [[9, 3]] = [[9, 3]] ∧
    grids.transpose (grids.dedupRows (grids.transpose [[9, 3]])) = [[3, 9]] ∧
    grids.dedupColumns [[9, 3]] ≠
      grids.transpose (grids.dedupRows (grids.transpose [[9, 3]])) := by
  decide

/-- C7 (amended): for rectangular grids with at least two rows (and at
least one column), `dedupColumns` agrees with
`transpose ∘ dedupRows ∘ transpose`, including the no-op case; one-row
grids are excluded because the transposed rows then collapse to
integer-like JavaScript object keys, which iterate in numeric order rather
than first-seen order. -/
theorem C7_dedupColumns_amended (m : Grid) (h2 : 2 ≤ m.length)
    (hrect : ∀ r ∈ m, r.length = (m.headD []).length)
    (hw : 0 < (m.headD []).length) :
    grids.dedupColumns m = grids.transpose (grids.dedupRows (grids.transpose m)) := by
  have hTT : jsUnzip (jsUnzip m) = m := jsUnzip_involution m hw hrect
  have hca : columns.areAllColumnsEqual (jsUnzip m) = rows.areAllRowsEqual m := by
    unfold columns.areAllColumnsEqual rows.areAllRowsEqual
    rw [hTT]
  show grids.dedupColumns m = jsUnzip (grids.dedupRows (jsUnzip m))
  by_cases hr : rows.areAllRowsEqual m = true
  · have hall : ∀ r ∈ m, r = m.headD [] := (areAllRowsEqual_iff m).mp hr
    have hm0 : m.headD [] ≠ [] := by
      intro h0
      rw [h0] at hw
      simp at hw
    have hinj : Function.Injective (fun v : Nat => List.replicate m.length v) :=
      List.replicate_right_injective (by omega)
    have hT : jsUnzip m = (m.headD []).map (fun v => List.replicate m.length v) := by
      unfold jsUnzip
      have hcol : ∀ j, m.map (fun r => r.getD j 0) =
          List.replicate m.length ((m.headD []).getD j 0) := by
        intro j
        have h1 : m.map (fun r => r.getD j 0) =
            m.map (fun _ => (m.headD []).getD j 0) :=
          List.map_congr_left (fun r hrm => by rw [hall r hrm])
        rw [h1]
        exact List.map_const m _
      rw [List.map_congr_left (fun j _ => hcol j)]
      exact map_range_getD_comp (m.headD []) 0 (fun v => List.replicate m.length v)
    have hL : grids.dedupColumns m =
        List.replicate m.length (jsSetList (m.headD [])) := by
      unfold grids.dedupColumns
      rw [hr]
      simp only [Bool.not_true, Bool.false_eq_true, if_false]
      exact List.map_const m _
    have hguard : columns.areAllColumnsEqual (jsUnzip m) = true := by rw [hca, hr]
    have hU : grids.dedupRows (jsUnzip m) =
        (jsSetList (m.headD [])).map (fun v => List.replicate m.length v) := by
      unfold grids.dedupRows
      rw [hguard]
      simp only [Bool.not_true, Bool.false_eq_true, if_false]
      unfold grids.jsObjectRowValues
      have hhead : ((jsUnzip m).headD []).length = m.length := by
        rw [hT]
        obtain ⟨v, vs, hv⟩ := List.exists_cons_of_ne_nil hm0
        rw [hv]
        simp
      have hne1 : (((jsUnzip m).headD []).length == 1) = false := by
        rw [hhead]
        simp
        omega
      rw [hne1]
      simp only [Bool.false_eq_true, if_false]
      rw [hT, jsSetList_map _ hinj]
    rw [hL, hU]
    have hUne : jsSetList (m.headD []) ≠ [] := jsSetList_ne_nil hm0
    obtain ⟨u, us, hu⟩ := List.exists_cons_of_ne_nil hUne
    unfold jsUnzip
    have hhd : (((jsSetList (m.headD [])).map
        (fun v => List.replicate m.length v)).headD []).length = m.length := by
      rw [hu]
      simp
    rw [hhd]
    have hrow : ∀ i, i < m.length →
        ((jsSetList (m.headD [])).map (fun v => List.replicate m.length v)).map
          (fun c => c.getD i 0) = jsSetList (m.headD []) := by
      intro i hi
      rw [List.map_map]
      have hid : ∀ v ∈ jsSetList (m.headD []),
          ((fun c : Row => c.getD i 0) ∘ fun v => List.replicate m.length v) v = v := by
        intro v _
        simp only [Function.comp]
        rw [List.getD_eq_getElem?_getD, List.getElem?_replicate, if_pos hi]
        rfl
      rw [List.map_congr_left hid, List.map_id']
    apply List.ext_getElem?
    intro i
    rw [List.getElem?_map]
    by_cases hi : i < m.length
    · rw [List.getElem?_range hi, List.getElem?_replicate, if_pos hi, Option.map_some']
      exact congrArg some (hrow i hi).symm
    · rw [List.getElem?_eq_none (by simpa using not_lt.mp hi),
        List.getElem?_eq_none (by simpa using not_lt.mp hi)]
      rfl
  · have hr' : rows.areAllRowsEqual m = false := Bool.eq_false_iff.mpr hr
    unfold grids.dedupColumns grids.dedupRows
    rw [hr', hca, hr']
    simp only [Bool.not_false, if_true]
    exact hTT.symm

/-- C7 witness: a concrete 2×3 all-rows-equal grid and both routes. -/
theorem C7_dedupColumns_amended_witness :
    grids.dedupColumns [[1, 1, 2], [1, 1, 2]] =
      grids.transpose (grids.dedupRows (grids.transpose [[1, 1, 2], [1, 1, 2]])) :=
  C7_dedupColumns_amended [[1, 1, 2], [1, 1, 2]] (by decide) (by decide) (by decide)

/-- C4 counterexample: input `[[1,2]]` and output `[[2,1]]` have the same
two-element non-background color *set*, yet the detector returns `false`
because it compares the first-occurrence color *lists* `[1,2]` and `[2,1]`
with `_.isEqual`. -/
theorem C4_counterexample :
    grids.areAllInputAndOutputCellsTwoColorsOrBlack ⟨[[1, 2]], [[2, 1]]⟩ = false ∧
    nonBgColors [[1, 2]] = nonBgColors [[2, 1]] ∧
    (nonBgColors [[1, 2]]).card = 2 ∧ (nonBgColors [[2, 1]]).card = 2 := by
  decide

/-- C4 (amended): `areAllInputAndOutputCellsTwoColorsOrBlack` is `true` iff
the input has exactly two distinct non-background colors, the output has
exactly two distinct non-background colors, and the *lists* of distinct
non-background colors in first-occurrence order are equal — an
order-sensitive comparison, not equality of sets. -/
theorem C4_twoColors_amended (s : Sample) :
    grids.areAllInputAndOutputCellsTwoColorsOrBlack s = true ↔
      (nonBgColors s.input).card = 2 ∧ (nonBgColors s.output).card = 2 ∧
        grids.colorsBesidesBlack s.input = grids.colorsBesidesBlack s.output := by
  unfold grids.areAllInputAndOutputCellsTwoColorsOrBlack
  simp only [Bool.and_eq_true, areAllCellsNColorsOrBlack_iff, beq_iff_eq, and_assoc]

/-- C10: on a non-empty rectangular grid, `transpose` moves element
`(i, j)` to `(j, i)`, and applying it twice returns the original grid. -/
theorem C10_transpose_involution (g : Grid) (_hne : g ≠ [])
    (hw : 0 < (g.headD []).length)
    (hrect : ∀ r ∈ g, r.length = (g.headD []).length) :
    (∀ i j, i < g.length → j < (g.headD []).length →
      ((grids.transpose g).getD j []).getD i 0 = (g.getD i []).getD j 0) ∧
    grids.transpose (grids.transpose g) = g :=
  ⟨fun i j hi hj => jsUnzip_elem g i j hi hj, jsUnzip_involution g hw hrect⟩

/-- C10 witness: a concrete 2×2 grid. -/
theorem C10_transpose_involution_witness :
    ((grids.transpose [[1, 2], [3, 4]]).getD 1 []).getD 0 0 =
      (([[1, 2], [3, 4]] : Grid).getD 0 []).getD 1 0 ∧
    grids.transpose (grids.transpose [[1, 2], [3, 4]]) = [[1, 2], [3, 4]] :=
  ⟨(C10_transpose_involution [[1, 2], [3, 4]] (by decide) (by decide)
      (by decide)).1 0 1 (by decide) (by decide),
   (C10_transpose_involution [[1, 2], [3, 4]] (by decide) (by decide)
      (by decide)).2⟩

end ArcStudy
